import Mathlib

/-!
Verification of the Accuknox-Assignment repository.

The repository has two independent parts:

* `myapp/` — a Django view `create_user` (`views.py`) that creates a
  `User` inside `transaction.atomic()`, together with a `post_save`
  signal handler `user_post_save` (`signals.py`) that runs synchronously
  when the user row is inserted.  We embed this as a pure function
  producing an explicit trace of observable events (log lines, the
  insert, the sleep, the commit/rollback decision) plus the response
  string and the post-request database contents.

* `Custom-Classes-Code/Rectangle.py` — a value class whose constructor
  type-checks its two arguments with `isinstance(_, int)` and whose
  `__iter__` is a generator yielding `{"length": l}` then
  `{"width": b}`.  We embed Python values as a small dynamic-value type
  (where `bool` is a subtype of `int`, as in Python), the constructor
  as an `Except`-returning function, and the generator as an explicit
  step function on a generator-state type.
-/

namespace Accuknox

/-- A Django `auth.User` as used by this app: only the username matters. -/
structure User where
  username : String
deriving DecidableEq, Repr

/-- Observable events of a request execution: each `print` call in
`views.py` / `signals.py`, the row insert, the `time.sleep`, the raised
exception and the transaction outcome. -/
inductive Event where
  | viewThreadLog (tname : String)      -- "View running in thread: {name}"
  | startLog                            -- "Starting user creation process..."
  | insert (u : User)                   -- the INSERT issued by User.objects.create
  | signalThreadLog (tname : String)    -- "Signal handler running in thread: {name}"
  | signalCreatedLog (username : String) -- the log line naming the created user
  | sleep (seconds : Nat)               -- time.sleep(5)
  | signalDoneLog                       -- "Signal handler done after 5 seconds"
  | signalCompletedLog                  -- "Signal handler completed."
  | beforeCommitLog                     -- "User creation process finished, but before committing transaction..."
  | raiseExc (msg : String)             -- raise Exception(...) inside the atomic block
  | rollback                            -- atomic block exits with an exception
  | commit                              -- atomic block exits normally
  | exceptionLog (msg : String)         -- "Exception occurred: {e}"
deriving DecidableEq, Repr

/-- `signals.py`, `user_post_save`: the ordered list of side effects the
`post_save` receiver performs.  `created` is Django's flag for a fresh
insert; `inst` is the saved instance; `tname` is the name of the thread
the handler runs in (the caller's thread, since Django signals are
synchronous). -/
def user_post_save (created : Bool) (inst : User) (tname : String) : List Event :=
  if created then
    [Event.signalThreadLog tname,
     Event.signalCreatedLog inst.username,
     Event.sleep 5,
     Event.signalDoneLog,
     Event.signalCompletedLog]
  else []

/-- An HTTP request: its GET query parameters as key/value pairs. -/
structure Request where
  GET : List (String × String)
deriving DecidableEq, Repr

/-- `request.GET.get(key, default)`: the value of the first pair whose
key matches, else the default. -/
def request_get (req : Request) (key default : String) : String :=
  match req.GET.find? (fun p => p.1 == key) with
  | some p => p.2
  | none => default

/-- The message of the simulated failure raised in `views.py`. -/
def simulatedErrorMsg : String := "Simulating an error to roll back the transaction"

/-- The complete outcome of one execution of the `create_user` view:
the event trace, the plain-text response body, the database contents
after the request (the committed user, if any), and the user object the
view constructed (whether or not it was committed). -/
structure ViewResult where
  events : List Event
  response : String
  db : Option User
  createdUser : User
deriving DecidableEq, Repr

/-- `views.py`, `create_user`, executed in thread `tname`:
prints the view's thread, opens `transaction.atomic()`, prints the start
message, creates the user named `tname ++ "1"` (which synchronously runs
`user_post_save` with `created = true` in the same thread), prints the
before-commit message, then — if the `fail` query parameter equals
`"yes"` — raises the simulated exception, so the atomic block rolls all
writes back, the view prints the exception and returns the failure
response; otherwise the atomic block commits and the view returns the
success response. -/
def create_user (req : Request) (tname : String) : ViewResult :=
  let u : User := ⟨tname ++ "1"⟩
  let bodyEvents : List Event :=
    [Event.startLog, Event.insert u]
      ++ user_post_save true u tname
      ++ [Event.beforeCommitLog]
  if request_get req "fail" "no" == "yes" then
    { events := Event.viewThreadLog tname :: bodyEvents
        ++ [Event.raiseExc simulatedErrorMsg, Event.rollback,
            Event.exceptionLog simulatedErrorMsg]
      response := "Transaction failed, user was not created!"
      db := none
      createdUser := u }
  else
    { events := Event.viewThreadLog tname :: bodyEvents ++ [Event.commit]
      response := "User created successfully!"
      db := some u
      createdUser := u }

/-- Event `a` occurs (strictly) before event `b` in trace `l`. -/
def OccursBefore (l : List Event) (a b : Event) : Prop :=
  ∃ l₁ l₂ l₃, l = l₁ ++ a :: l₂ ++ b :: l₃

/-- The transaction-outcome event of a request: `rollback` when the
`fail` parameter is `"yes"`, `commit` otherwise. -/
def decisionEvent (req : Request) : Event :=
  if request_get req "fail" "no" == "yes" then Event.rollback else Event.commit

/-! ## The Rectangle class (`Custom-Classes-Code/Rectangle.py`) -/

/-- A Python value, as far as this program can distinguish them: an
`int`, a `bool` (a distinct runtime type that is nevertheless a subclass
of `int` in Python), a `float` (its numeric payload modelled as a
rational; the program never computes with it), a `str`, or `None`. -/
inductive PyVal where
  | vint (n : Int)
  | vbool (b : Bool)
  | vfloat (q : Rat)
  | vstr (s : String)
  | vnone
deriving DecidableEq, Repr

/-- Python's `isinstance(v, int)`: true for `int` values and for `bool`
values, since `bool` is a subclass of `int`. -/
def isinstance_int : PyVal → Bool
  | PyVal.vint _ => true
  | PyVal.vbool _ => true
  | _ => false

/-- The `Rectangle` class: the two attributes `self.l` and `self.b`
assigned by `__init__`. -/
structure Rectangle where
  l : PyVal
  b : PyVal
deriving DecidableEq, Repr

/-- `Rectangle.__init__`: raises `ValueError("Length and Breadth must be
numbers")` unless both arguments pass `isinstance(_, int)`; otherwise
stores them. -/
def Rectangle.init (l b : PyVal) : Except String Rectangle :=
  if !(isinstance_int l) || !(isinstance_int b) then
    Except.error "Length and Breadth must be numbers"
  else
    Except.ok ⟨l, b⟩

/-- A single-key Python dict, as yielded by `Rectangle.__iter__`. -/
def PyDict := List (String × PyVal)
deriving DecidableEq, Repr

/-- The state of one generator produced by calling `Rectangle.__iter__`:
not yet started, suspended after the first `yield`, or exhausted. -/
inductive GenState where
  | start
  | afterLength
  | done
deriving DecidableEq, Repr

/-- One resumption step of the `__iter__` generator: from `start` it
yields `{"length": self.l}` and suspends; from there it yields
`{"width": self.b}` and suspends; then it is exhausted. -/
def Rectangle.genNext (r : Rectangle) : GenState → Option (PyDict × GenState)
  | GenState.start => some ([("length", r.l)], GenState.afterLength)
  | GenState.afterLength => some ([("width", r.b)], GenState.done)
  | GenState.done => none

/-- Run a generator of `r` from state `s` to exhaustion, collecting the
yielded dicts (fuel-bounded; two units suffice for this generator). -/
def Rectangle.runGen (r : Rectangle) (fuel : Nat) (s : GenState) : List PyDict :=
  match fuel with
  | 0 => []
  | fuel' + 1 =>
    match r.genNext s with
    | none => []
    | some (d, s') => d :: r.runGen fuel' s'

/-- A fresh iteration of `r`: `iter(r)` constructs a new generator in its
initial state and drains it. -/
def Rectangle.iterate (r : Rectangle) : List PyDict :=
  r.runGen 3 GenState.start

/-! ## Theorems -/

/-- The concrete outcome of `create_user` when the `fail` parameter is
`"yes"`. -/
lemma create_user_eq_of_fail (req : Request) (tname : String)
    (h : request_get req "fail" "no" = "yes") :
    create_user req tname =
      { events := [Event.viewThreadLog tname, Event.startLog,
          Event.insert ⟨tname ++ "1"⟩, Event.signalThreadLog tname,
          Event.signalCreatedLog (tname ++ "1"), Event.sleep 5,
          Event.signalDoneLog, Event.signalCompletedLog,
          Event.beforeCommitLog, Event.raiseExc simulatedErrorMsg,
          Event.rollback, Event.exceptionLog simulatedErrorMsg],
        response := "Transaction failed, user was not created!",
        db := none,
        createdUser := ⟨tname ++ "1"⟩ } := by
  simp [create_user, user_post_save, h]

/-- The concrete outcome of `create_user` when the `fail` parameter is
anything other than `"yes"`. -/
lemma create_user_eq_of_commit (req : Request) (tname : String)
    (h : request_get req "fail" "no" ≠ "yes") :
    create_user req tname =
      { events := [Event.viewThreadLog tname, Event.startLog,
          Event.insert ⟨tname ++ "1"⟩, Event.signalThreadLog tname,
          Event.signalCreatedLog (tname ++ "1"), Event.sleep 5,
          Event.signalDoneLog, Event.signalCompletedLog,
          Event.beforeCommitLog, Event.commit],
        response := "User created successfully!",
        db := some ⟨tname ++ "1"⟩,
        createdUser := ⟨tname ++ "1"⟩ } := by
  simp [create_user, user_post_save, h]

/-- C5: on every invocation of the `post_save` handler for a
newly-created user (`created = true`), its side effects are exactly, in
order: log the current thread, log the creation message with the
instance's username, sleep 5 seconds, log "done after 5 seconds", log
"completed". -/
theorem C5_notifier_side_effect_order (inst : User) (tname : String) :
    user_post_save true inst tname =
      [Event.signalThreadLog tname,
       Event.signalCreatedLog inst.username,
       Event.sleep 5,
       Event.signalDoneLog,
       Event.signalCompletedLog] := rfl

/-- C9: when the `post_save` handler is invoked with `created = false`,
it performs no side effects at all: no logging, no sleep. -/
theorem C9_no_effects_when_not_created (inst : User) (tname : String) :
    user_post_save false inst tname = [] := rfl

/-- C6: iterating a `Rectangle(3, 4)` yields exactly `{"length": 3}`
then `{"width": 4}` and nothing else, and a second fresh iteration of
the same instance yields the same two-element sequence again. -/
theorem C6_rectangle_iteration :
    (Rectangle.init (PyVal.vint 3) (PyVal.vint 4)).map
        (fun r => (r.iterate, r.iterate)) =
      Except.ok ([[("length", PyVal.vint 3)], [("width", PyVal.vint 4)]],
                 [[("length", PyVal.vint 3)], [("width", PyVal.vint 4)]]) := rfl

/-- C7: `Rectangle` construction fails with the invalid-argument error
whenever either argument is not an integer (in Python, `bool` values are
also of type `int`), in either argument position, and construction with
two integer arguments succeeds. -/
theorem C7_constructor_type_check (l b : PyVal) :
    ((∀ n : Int, l ≠ PyVal.vint n) → (∀ x : Bool, l ≠ PyVal.vbool x) →
        Rectangle.init l b = Except.error "Length and Breadth must be numbers")
    ∧ ((∀ n : Int, b ≠ PyVal.vint n) → (∀ x : Bool, b ≠ PyVal.vbool x) →
        Rectangle.init l b = Except.error "Length and Breadth must be numbers")
    ∧ (∀ m n : Int, Rectangle.init (PyVal.vint m) (PyVal.vint n) =
        Except.ok ⟨PyVal.vint m, PyVal.vint n⟩) := by
  refine ⟨?_, ?_, fun m n => rfl⟩
  · intro h1 h2
    cases l with
    | vint n => exact absurd rfl (h1 n)
    | vbool x => exact absurd rfl (h2 x)
    | vfloat q => rfl
    | vstr s => rfl
    | vnone => rfl
  · intro h1 h2
    cases b with
    | vint n => exact absurd rfl (h1 n)
    | vbool x => exact absurd rfl (h2 x)
    | vfloat q => simp [Rectangle.init, isinstance_int]
    | vstr s => simp [Rectangle.init, isinstance_int]
    | vnone => simp [Rectangle.init, isinstance_int]

/-- Witness for C7 at a concrete non-integer argument (a float in the
first position). -/
theorem C7_constructor_type_check_witness :
    Rectangle.init (PyVal.vfloat (3 / 2)) (PyVal.vint 4) =
      Except.error "Length and Breadth must be numbers" :=
  (C7_constructor_type_check (PyVal.vfloat (3 / 2)) (PyVal.vint 4)).1
    (fun _ h => PyVal.noConfusion h) (fun _ h => PyVal.noConfusion h)

/-- C10: construction raises the error (whose message says "numbers")
exactly when at least one argument fails the `isinstance(_, int)` check;
floats fail that check despite being numbers, while Python booleans pass
it because `bool` is a subtype of `int`. -/
theorem C10_error_iff_isinstance_check (l b : PyVal) :
    (Rectangle.init l b = Except.error "Length and Breadth must be numbers"
      ↔ (isinstance_int l = false ∨ isinstance_int b = false))
    ∧ (∀ q : Rat, isinstance_int (PyVal.vfloat q) = false)
    ∧ (∀ x : Bool, isinstance_int (PyVal.vbool x) = true)
    ∧ Rectangle.init (PyVal.vfloat (7 / 2)) (PyVal.vint 2) =
        Except.error "Length and Breadth must be numbers"
    ∧ Rectangle.init (PyVal.vbool true) (PyVal.vbool false) =
        Except.ok ⟨PyVal.vbool true, PyVal.vbool false⟩ := by
  refine ⟨?_, fun q => rfl, fun x => rfl, rfl, rfl⟩
  by_cases hl : isinstance_int l = true <;> by_cases hb : isinstance_int b = true <;>
    simp [Rectangle.init, hl, hb]

/-- C2: when the `fail` parameter equals `"yes"`, the view raises the
simulated failure inside the transactional scope after the insert (the
raise occurs after the insert and before the rollback), the transaction
rolls back so no user exists after the request, and the response is
exactly "Transaction failed, user was not created!". -/
theorem C2_fail_yes_rolls_back (req : Request) (tname : String)
    (h : request_get req "fail" "no" = "yes") :
    (create_user req tname).response = "Transaction failed, user was not created!"
    ∧ (create_user req tname).db = none
    ∧ Event.insert ⟨tname ++ "1"⟩ ∈ (create_user req tname).events
    ∧ OccursBefore (create_user req tname).events
        (Event.insert ⟨tname ++ "1"⟩) (Event.raiseExc simulatedErrorMsg)
    ∧ OccursBefore (create_user req tname).events
        (Event.raiseExc simulatedErrorMsg) Event.rollback := by
  rw [create_user_eq_of_fail req tname h]
  refine ⟨rfl, rfl, by simp, ?_, ?_⟩
  · exact ⟨[Event.viewThreadLog tname, Event.startLog],
      [Event.signalThreadLog tname, Event.signalCreatedLog (tname ++ "1"),
       Event.sleep 5, Event.signalDoneLog, Event.signalCompletedLog,
       Event.beforeCommitLog],
      [Event.rollback, Event.exceptionLog simulatedErrorMsg], rfl⟩
  · exact ⟨[Event.viewThreadLog tname, Event.startLog,
      Event.insert ⟨tname ++ "1"⟩, Event.signalThreadLog tname,
      Event.signalCreatedLog (tname ++ "1"), Event.sleep 5,
      Event.signalDoneLog, Event.signalCompletedLog, Event.beforeCommitLog],
      [], [Event.exceptionLog simulatedErrorMsg], rfl⟩

/-- Witness for C2 at the concrete request `?fail=yes` in thread
"MainThread". -/
theorem C2_fail_yes_rolls_back_witness :
    request_get ⟨[("fail", "yes")]⟩ "fail" "no" = "yes"
    ∧ ((create_user ⟨[("fail", "yes")]⟩ "MainThread").response =
          "Transaction failed, user was not created!"
      ∧ (create_user ⟨[("fail", "yes")]⟩ "MainThread").db = none
      ∧ Event.insert ⟨"MainThread" ++ "1"⟩ ∈
          (create_user ⟨[("fail", "yes")]⟩ "MainThread").events
      ∧ OccursBefore (create_user ⟨[("fail", "yes")]⟩ "MainThread").events
          (Event.insert ⟨"MainThread" ++ "1"⟩) (Event.raiseExc simulatedErrorMsg)
      ∧ OccursBefore (create_user ⟨[("fail", "yes")]⟩ "MainThread").events
          (Event.raiseExc simulatedErrorMsg) Event.rollback) :=
  ⟨by decide, C2_fail_yes_rolls_back ⟨[("fail", "yes")]⟩ "MainThread" (by decide)⟩

/-- C3: when the `fail` parameter is absent or differs from `"yes"`, no
failure is raised (no raise event occurs in the trace), the transaction
commits so the created user exists afterwards, and the response is
exactly "User created successfully!". -/
theorem C3_no_fail_commits (req : Request) (tname : String)
    (h : request_get req "fail" "no" ≠ "yes") :
    (create_user req tname).response = "User created successfully!"
    ∧ (create_user req tname).db = some ⟨tname ++ "1"⟩
    ∧ Event.commit ∈ (create_user req tname).events
    ∧ Event.raiseExc simulatedErrorMsg ∉ (create_user req tname).events
    ∧ Event.rollback ∉ (create_user req tname).events := by
  rw [create_user_eq_of_commit req tname h]
  refine ⟨rfl, rfl, by simp, by simp [simulatedErrorMsg], by simp⟩

/-- Witness for C3 at the concrete request with no query parameters in
thread "MainThread". -/
theorem C3_no_fail_commits_witness :
    request_get ⟨[]⟩ "fail" "no" ≠ "yes"
    ∧ ((create_user ⟨[]⟩ "MainThread").response = "User created successfully!"
      ∧ (create_user ⟨[]⟩ "MainThread").db = some ⟨"MainThread" ++ "1"⟩
      ∧ Event.commit ∈ (create_user ⟨[]⟩ "MainThread").events
      ∧ Event.raiseExc simulatedErrorMsg ∉ (create_user ⟨[]⟩ "MainThread").events
      ∧ Event.rollback ∉ (create_user ⟨[]⟩ "MainThread").events) :=
  ⟨by decide, C3_no_fail_commits ⟨[]⟩ "MainThread" (by decide)⟩

/-- C1: for every request — whether the transaction later commits or
rolls back — the notifier's full side-effect sequence occurs as a
contiguous block of the trace, and each of its five effects (the two
leading logs, the 5-second sleep, the two completion logs) occurs
exactly once in the whole trace. -/
theorem C1_notifier_runs_exactly_once (req : Request) (tname : String) :
    user_post_save true ⟨tname ++ "1"⟩ tname <:+: (create_user req tname).events
    ∧ (create_user req tname).events.count (Event.signalThreadLog tname) = 1
    ∧ (create_user req tname).events.count (Event.signalCreatedLog (tname ++ "1")) = 1
    ∧ (create_user req tname).events.count (Event.sleep 5) = 1
    ∧ (create_user req tname).events.count Event.signalDoneLog = 1
    ∧ (create_user req tname).events.count Event.signalCompletedLog = 1 := by
  rcases eq_or_ne (request_get req "fail" "no") "yes" with h | h
  · rw [create_user_eq_of_fail req tname h]
    refine ⟨⟨[Event.viewThreadLog tname, Event.startLog,
        Event.insert ⟨tname ++ "1"⟩],
      [Event.beforeCommitLog, Event.raiseExc simulatedErrorMsg,
        Event.rollback, Event.exceptionLog simulatedErrorMsg], rfl⟩,
      ?_, ?_, ?_, ?_, ?_⟩ <;> simp [List.count_cons]
  · rw [create_user_eq_of_commit req tname h]
    refine ⟨⟨[Event.viewThreadLog tname, Event.startLog,
        Event.insert ⟨tname ++ "1"⟩],
      [Event.beforeCommitLog, Event.commit], rfl⟩,
      ?_, ?_, ?_, ?_, ?_⟩ <;> simp [List.count_cons]

/-- C4: in every execution the trace is ordered: the insert occurs
before the notifier's first effect, the notifier's delay and its final
effect occur before the view's post-creation log, and that log occurs
before the commit-or-rollback decision event, which occurs in the
trace. -/
theorem C4_events_totally_ordered (req : Request) (tname : String) :
    OccursBefore (create_user req tname).events
        (Event.insert ⟨tname ++ "1"⟩) (Event.signalThreadLog tname)
    ∧ OccursBefore (create_user req tname).events
        (Event.sleep 5) Event.beforeCommitLog
    ∧ OccursBefore (create_user req tname).events
        Event.signalCompletedLog Event.beforeCommitLog
    ∧ OccursBefore (create_user req tname).events
        Event.beforeCommitLog (decisionEvent req)
    ∧ decisionEvent req ∈ (create_user req tname).events := by
  rcases eq_or_ne (request_get req "fail" "no") "yes" with h | h
  · have hd : decisionEvent req = Event.rollback := by
      simp [decisionEvent, h]
    rw [create_user_eq_of_fail req tname h, hd]
    refine ⟨?_, ?_, ?_, ?_, by simp⟩
    · exact ⟨[Event.viewThreadLog tname, Event.startLog], [],
        [Event.signalCreatedLog (tname ++ "1"), Event.sleep 5,
         Event.signalDoneLog, Event.signalCompletedLog, Event.beforeCommitLog,
         Event.raiseExc simulatedErrorMsg, Event.rollback,
         Event.exceptionLog simulatedErrorMsg], rfl⟩
    · exact ⟨[Event.viewThreadLog tname, Event.startLog,
        Event.insert ⟨tname ++ "1"⟩, Event.signalThreadLog tname,
        Event.signalCreatedLog (tname ++ "1")],
        [Event.signalDoneLog, Event.signalCompletedLog],
        [Event.raiseExc simulatedErrorMsg, Event.rollback,
         Event.exceptionLog simulatedErrorMsg], rfl⟩
    · exact ⟨[Event.viewThreadLog tname, Event.startLog,
        Event.insert ⟨tname ++ "1"⟩, Event.signalThreadLog tname,
        Event.signalCreatedLog (tname ++ "1"), Event.sleep 5,
        Event.signalDoneLog], [],
        [Event.raiseExc simulatedErrorMsg, Event.rollback,
         Event.exceptionLog simulatedErrorMsg], rfl⟩
    · exact ⟨[Event.viewThreadLog tname, Event.startLog,
        Event.insert ⟨tname ++ "1"⟩, Event.signalThreadLog tname,
        Event.signalCreatedLog (tname ++ "1"), Event.sleep 5,
        Event.signalDoneLog, Event.signalCompletedLog],
        [Event.raiseExc simulatedErrorMsg],
        [Event.exceptionLog simulatedErrorMsg], rfl⟩
  · have hd : decisionEvent req = Event.commit := by
      simp [decisionEvent, h]
    rw [create_user_eq_of_commit req tname h, hd]
    refine ⟨?_, ?_, ?_, ?_, by simp⟩
    · exact ⟨[Event.viewThreadLog tname, Event.startLog], [],
        [Event.signalCreatedLog (tname ++ "1"), Event.sleep 5,
         Event.signalDoneLog, Event.signalCompletedLog, Event.beforeCommitLog,
         Event.commit], rfl⟩
    · exact ⟨[Event.viewThreadLog tname, Event.startLog,
        Event.insert ⟨tname ++ "1"⟩, Event.signalThreadLog tname,
        Event.signalCreatedLog (tname ++ "1")],
        [Event.signalDoneLog, Event.signalCompletedLog],
        [Event.commit], rfl⟩
    · exact ⟨[Event.viewThreadLog tname, Event.startLog,
        Event.insert ⟨tname ++ "1"⟩, Event.signalThreadLog tname,
        Event.signalCreatedLog (tname ++ "1"), Event.sleep 5,
        Event.signalDoneLog], [], [Event.commit], rfl⟩
    · exact ⟨[Event.viewThreadLog tname, Event.startLog,
        Event.insert ⟨tname ++ "1"⟩, Event.signalThreadLog tname,
        Event.signalCreatedLog (tname ++ "1"), Event.sleep 5,
        Event.signalDoneLog, Event.signalCompletedLog], [], [], rfl⟩

/-- C8: in every execution the user the view creates has username equal
to the current thread name concatenated with the fixed suffix "1", and
the insert the view issues carries exactly that user. -/
theorem C8_username_is_thread_name_plus_suffix (req : Request) (tname : String) :
    (create_user req tname).createdUser = ⟨tname ++ "1"⟩
    ∧ Event.insert ((create_user req tname).createdUser) ∈
        (create_user req tname).events := by
  rcases eq_or_ne (request_get req "fail" "no") "yes" with h | h
  · rw [create_user_eq_of_fail req tname h]
    exact ⟨rfl, by simp⟩
  · rw [create_user_eq_of_commit req tname h]
    exact ⟨rfl, by simp⟩

end Accuknox
